import Mathlib

/-!
Verification of the light-novel writing-support app (src/app.py) against its
natural-language specification.  The Python source is shallowly embedded:
strings are `String` / `List Char` (Python `len` counts code points, which
matches `List Char` length), dictionaries with possibly-missing keys become
structures with `Option` fields, `st.session_state` mutation becomes explicit
state passing, and a Python exception becomes an `Except` error value.
-/

namespace AInovel

/-! ## Python string primitives (over `List Char`)

Python `needle in hay` is substring containment, `hay.count(needle)` counts
non-overlapping occurrences left to right, `hay.split(sep)` with a one-char
separator splits on every occurrence keeping empty segments, `s.strip()`
removes leading and trailing whitespace, `s[:n]` truncates to an `n`-code-point
prefix. -/

def isPrefixB : List Char → List Char → Bool
  | [], _ => true
  | _ :: _, [] => false
  | a :: as, b :: bs => a == b && isPrefixB as bs

/-- Python `needle in hay` (substring containment). -/
def pyIn (needle : List Char) : List Char → Bool
  | [] => isPrefixB needle []
  | c :: t => isPrefixB needle (c :: t) || pyIn needle t

/-- Scanner for `pyCount`: on a match the next `needle.length - 1` characters
are skipped (`skip` counts characters still to skip), so occurrences are
counted non-overlapping, left to right, exactly as Python's `str.count`. -/
def pyCountAux (needle : List Char) : Nat → List Char → Nat
  | _, [] => 0
  | n + 1, _ :: t => pyCountAux needle n t
  | 0, c :: t =>
    if isPrefixB needle (c :: t) then 1 + pyCountAux needle (needle.length - 1) t
    else pyCountAux needle 0 t

/-- Python `hay.count(needle)`: non-overlapping occurrences, scanning left to
right (for an empty needle Python returns `len(hay) + 1`). -/
def pyCount (needle : List Char) (hay : List Char) : Nat :=
  if needle = [] then hay.length + 1 else pyCountAux needle 0 hay

/-- Python `hay.split(sep)` for a single-character separator: keeps empty
segments, `"".split(sep) == [""]`. -/
def pySplit (sep : Char) : List Char → List (List Char)
  | [] => [[]]
  | c :: t =>
    if c = sep then [] :: pySplit sep t
    else
      match pySplit sep t with
      | [] => [[c]]
      | seg :: rest => (c :: seg) :: rest

/-- Python `s.strip()` (whitespace characters; the inputs of interest contain
no exotic Unicode whitespace, so `Char.isWhitespace` is adequate). -/
def pyStrip (l : List Char) : List Char :=
  ((l.dropWhile Char.isWhitespace).reverse.dropWhile Char.isWhitespace).reverse

/-- Python `s[:n]` on strings (slice of the first `n` code points). -/
def pySlice (n : Nat) (s : String) : String := ⟨s.data.take n⟩

/-- Python `s.startswith(p)`. -/
def pyStartsWith (p : String) (s : String) : Bool := isPrefixB p.data s.data

-- a quick sanity example for the primitives
example : pyIn "しかし".data "あしかしあ".data = true := by decide
example : pyIn "？".data "あ?あ".data = false := by decide
example : pyCount "しかし".data "しかしあしかし".data = 2 := by decide
example : pySplit '。' "あ。い。。".data = ["あ".data, "い".data, [], []] := by decide

/-! ## TokenEstimator — `count_tokens` (src/app.py:105-112)

```python
def count_tokens(text: str) -> int:
    japanese_chars = len([c for c in text if ord(c) > 127])
    english_words = len(re.findall(r'\b\w+\b', text))
    estimated_tokens = int(japanese_chars * 1.5 + english_words * 1.3)
    if len(text) > 500:
        estimated_tokens += len(text) // 10
    return max(1, estimated_tokens)
```

`re.findall(r'\b\w+\b', text)` returns the maximal runs of word characters,
so `english_words` is the number of such runs.  Python's Unicode `\w` covers
ASCII alphanumerics, the underscore and non-ASCII letters/digits; `isWordChar`
below reflects that (wide punctuation is approximated as a word character —
the theorems proved about `count_tokens` hold for every choice of this
predicate, see `countRuns_append_le`).  The float expression
`int(j * 1.5 + e * 1.3)` is read in exact arithmetic as
`(15 * j + 13 * e) / 10` (floor). -/

def isWordChar (c : Char) : Bool := c.isAlphanum || c == '_' || 127 < c.toNat

/-- Number of maximal runs of characters satisfying `p` (the `Bool` argument
records whether the scan is currently inside a run). -/
def countRunsAux (p : Char → Bool) : List Char → Bool → Nat
  | [], _ => 0
  | c :: cs, inRun =>
    if p c then (if inRun then 0 else 1) + countRunsAux p cs true
    else countRunsAux p cs false

def countRuns (p : Char → Bool) (l : List Char) : Nat := countRunsAux p l false

def count_tokens (text : String) : Nat :=
  let japanese_chars := text.data.countP (fun c => 127 < c.toNat)
  let english_words := countRuns isWordChar text.data
  let estimated_tokens := (japanese_chars * 15 + english_words * 13) / 10
  let estimated_tokens :=
    if 500 < text.data.length then estimated_tokens + text.data.length / 10
    else estimated_tokens
  max 1 estimated_tokens

example : count_tokens "hello world" = 2 := by decide
example : count_tokens "" = 1 := by decide
example : count_tokens "あいう" = 5 := by decide

/-! ## QualityHeuristic — `analyze_synopsis_quality` (src/app.py:143-162)

The score is accumulated sequentially in the source; it equals the sum of the
five independent contributions below, clamped by `min(score, 100)`. -/

def engaging_words : List (List Char) :=
  ["しかし".data, "だが".data, "突然".data, "ついに".data, "果たして".data,
   "なぜなら".data, "そして".data, "もし".data, "驚くべきことに".data]

def genre_keywords : List (List Char) :=
  ["魔法".data, "異世界".data, "ドラゴン".data, "冒険".data]

/-- `if 200 <= len <= 400: +30 elif 150 <= len <= 500: +20 else: +10`. -/
def lengthScore (s : List Char) : Nat :=
  if 200 ≤ s.length ∧ s.length ≤ 400 then 30
  else if 150 ≤ s.length ∧ s.length ≤ 500 then 20
  else 10

/-- `for word in engaging_words: if word in synopsis: score += 5`. -/
def connectorScore (s : List Char) : Nat :=
  (engaging_words.map (fun w => if pyIn w s then 5 else 0)).sum

/-- `if "?" in synopsis or "！" in synopsis: score += 10` — note: the
half-width question mark and the full-width exclamation mark. -/
def punctuationScore (s : List Char) : Nat :=
  if pyIn "?".data s || pyIn "！".data s then 10 else 0

/-- `if any(keyword in synopsis for keyword in [...]): score += 15`. -/
def genreScore (s : List Char) : Nat :=
  if genre_keywords.any (fun w => pyIn w s) then 15 else 0

/-- `sentences = [s.strip() for s in synopsis.split("。") if s.strip()]`,
then its length. -/
def nonEmptySentences (s : List Char) : Nat :=
  (((pySplit '。' s).map pyStrip).filter (fun t => !t.isEmpty)).length

/-- `if 3 <= len(sentences) <= 6: score += 20`. -/
def sentenceScore (s : List Char) : Nat :=
  if 3 ≤ nonEmptySentences s ∧ nonEmptySentences s ≤ 6 then 20 else 0

def analyze_synopsis_quality (synopsis : String) : Nat :=
  min (lengthScore synopsis.data + connectorScore synopsis.data +
       punctuationScore synopsis.data + genreScore synopsis.data +
       sentenceScore synopsis.data) 100

example : analyze_synopsis_quality "" = 10 := by decide
example : analyze_synopsis_quality "しかし魔法？。あ。い。" = 50 := by decide

/-! ## UsageLedger — `log_api_usage` (src/app.py:114-132) and the
module-level daily reset (src/app.py:409-412)

`st.session_state.api_usage` is the dictionary initialised at
src/app.py:393-399; it becomes the structure `ApiUsage`. -/

structure UsageRecord where
  timestamp : String
  model : String
  prompt_tokens : Nat
  response_tokens : Nat
  total_tokens : Nat
deriving DecidableEq, Repr

structure ApiUsage where
  daily_requests : Nat
  daily_tokens_used : Nat
  last_reset_date : String
  total_requests : Nat
  total_tokens_used : Nat
  request_history : List UsageRecord
deriving DecidableEq, Repr

/-- The initial `api_usage` dictionary (src/app.py:394-399); the startup date
is a parameter standing for `datetime.now().date().isoformat()`. -/
def initialApiUsage (startDate : String) : ApiUsage :=
  { daily_requests := 0, daily_tokens_used := 0, last_reset_date := startDate,
    total_requests := 0, total_tokens_used := 0, request_history := [] }

/-- One call of `log_api_usage(prompt, response, model_name, prompt_tokens,
response_tokens)`; the wall-clock `datetime.now().isoformat()` read inside the
function is the explicit `timestamp` field.  The `prompt` and `response`
arguments are accepted and, as in the source, never used. -/
structure LogCall where
  prompt : String
  response : String
  model_name : String
  prompt_tokens : Nat
  response_tokens : Nat
  timestamp : String
deriving DecidableEq, Repr

def mkUsageRecord (c : LogCall) : UsageRecord :=
  { timestamp := c.timestamp, model := c.model_name,
    prompt_tokens := c.prompt_tokens, response_tokens := c.response_tokens,
    total_tokens := c.prompt_tokens + c.response_tokens }

def log_api_usage (u : ApiUsage) (c : LogCall) : ApiUsage :=
  let total_tokens := c.prompt_tokens + c.response_tokens
  let history := u.request_history ++ [mkUsageRecord c]
  { u with
    daily_requests := u.daily_requests + 1,
    daily_tokens_used := u.daily_tokens_used + total_tokens,
    total_requests := u.total_requests + 1,
    total_tokens_used := u.total_tokens_used + total_tokens,
    request_history :=
      if 100 < history.length then history.drop (history.length - 100)
      else history }

def applyLogs (u : ApiUsage) (cs : List LogCall) : ApiUsage :=
  cs.foldl log_api_usage u

/-- Module-level daily reset (src/app.py:409-412):
`if api_usage['last_reset_date'] != current_date: api_usage.update(
 {'daily_requests': 0, 'daily_tokens_used': 0, 'last_reset_date': current_date})`. -/
def daily_reset (current_date : String) (u : ApiUsage) : ApiUsage :=
  if u.last_reset_date ≠ current_date then
    { u with daily_requests := 0, daily_tokens_used := 0,
             last_reset_date := current_date }
  else u

/-! ## ProviderGateway — `call_generative_api` (src/app.py:166-241)

The three providers are dispatched on `st.session_state.selected_model_provider`
(always one of "Gemini", "OpenAI", "Claude", the options of the selectbox at
src/app.py:588-592).  The per-user API-key dictionary
`st.session_state.get('user_api_keys', {})` is read with the keys 'gemini',
'openai', 'claude'; it becomes the explicit map `api_keys`.  The outbound
vendor-SDK call is external: its behaviour is the explicit `outcome`
parameter — either a response text (with the provider-reported usage numbers
where the SDK reports them) or a raised exception message.  Python's
`if not api_key:` is true for a missing key and for the empty string. -/

inductive Provider
  | gemini
  | openai
  | claude
deriving DecidableEq, Repr

/-- `get_model_name` (src/app.py:134-141). -/
def get_model_name : Provider → String
  | .gemini => "gemini-2.0-flash"
  | .openai => "gpt-4o-mini"
  | .claude => "claude-3-haiku-20240307"

/-- The display name used in the per-provider missing-key error message. -/
def providerDisplayName : Provider → String
  | .gemini => "Gemini"
  | .openai => "OpenAI"
  | .claude => "Anthropic (Claude)"

/-- The early-return error text for a missing key (src/app.py:181,193,206). -/
def missingKeyMessage : Provider → String
  | .gemini => "エラー: Gemini APIキーが設定されていません。"
  | .openai => "エラー: OpenAI APIキーが設定されていません。"
  | .claude => "エラー: Anthropic (Claude) APIキーが設定されていません。"

/-- Behaviour of the external vendor SDK during one call: a successful
response (text plus the usage counters the SDK reports, ignored for Gemini
whose usage is estimated locally), or a raised exception. -/
inductive ProviderOutcome
  | success (text : String) (usage_prompt : Nat) (usage_response : Nat)
  | failure (msg : String)
deriving DecidableEq, Repr

/-- The `current_call_token_info` dictionary (src/app.py:223-228, 234-240). -/
structure TokenInfo where
  model : String
  prompt_tokens : Nat
  response_tokens : Nat
  total_tokens : Nat
  error : Option String
deriving DecidableEq, Repr

/-- The session state touched by `call_generative_api`:
`api_usage` and `current_call_token_info` (`none` is the initial `{}`). -/
structure GatewayState where
  api_usage : ApiUsage
  current_call_token_info : Option TokenInfo
deriving DecidableEq, Repr

/-- Return value `{"text": ..., "prompt_tokens": ..., "response_tokens": ...}`. -/
structure ApiCallResult where
  text : String
  prompt_tokens : Nat
  response_tokens : Nat
deriving DecidableEq, Repr

/-- Full observable effect of one `call_generative_api` invocation:
its return value, the session state afterwards, and whether an outbound
vendor call was attempted. -/
structure GatewayOutput where
  result : ApiCallResult
  state : GatewayState
  outbound_called : Bool
deriving DecidableEq, Repr

def call_generative_api (provider : Provider) (api_keys : Provider → Option String)
    (prompt : String) (outcome : ProviderOutcome) (timestamp : String)
    (st : GatewayState) : GatewayOutput :=
  let model_name := get_model_name provider
  match api_keys provider with
  | none =>
    { result := { text := missingKeyMessage provider, prompt_tokens := 0,
                  response_tokens := 0 },
      state := st, outbound_called := false }
  | some key =>
    if key = "" then
      { result := { text := missingKeyMessage provider, prompt_tokens := 0,
                    response_tokens := 0 },
        state := st, outbound_called := false }
    else
      match outcome with
      | .failure msg =>
        -- `except Exception as e:` (src/app.py:232-241): no ledger mutation,
        -- the summary slot is overwritten with zero tokens and the error.
        let info : TokenInfo :=
          { model := model_name, prompt_tokens := 0, response_tokens := 0,
            total_tokens := 0, error := some msg }
        { result := { text := "API呼び出し中にエラーが発生しました: " ++ msg,
                      prompt_tokens := 0, response_tokens := 0 },
          state := { st with current_call_token_info := some info },
          outbound_called := true }
      | .success text usage_prompt usage_response =>
        -- Gemini estimates both counts with `count_tokens`; OpenAI and Claude
        -- take the SDK-reported usage numbers (src/app.py:185-216).
        let prompt_tokens :=
          match provider with
          | .gemini => count_tokens prompt
          | _ => usage_prompt
        let response_tokens :=
          match provider with
          | .gemini => count_tokens text
          | _ => usage_response
        let usage' := log_api_usage st.api_usage
          { prompt := prompt, response := text, model_name := model_name,
            prompt_tokens := prompt_tokens, response_tokens := response_tokens,
            timestamp := timestamp }
        let info : TokenInfo :=
          { model := model_name, prompt_tokens := prompt_tokens,
            response_tokens := response_tokens,
            total_tokens := prompt_tokens + response_tokens, error := none }
        { result := { text := text, prompt_tokens := prompt_tokens,
                      response_tokens := response_tokens },
          state := { api_usage := usage',
                     current_call_token_info := some info },
          outbound_called := true }

/-! ## ProjectStore — project dictionaries

A project is a Python dict; keys can be absent (e.g. on imported data), so
every field is an `Option`.  A freshly created project (src/app.py:679-684)
has all eleven keys; the `full_story_*` keys are added later by the
full-story handler (src/app.py:1095-1097). -/

structure CharData where
  role : Option String
  details : Option String
deriving DecidableEq, Repr

structure GlossaryEntry where
  description : Option String
  added_at : Option String
deriving DecidableEq, Repr

structure PyProject where
  created_at : Option String := none
  synopsis : Option String := none
  characters : Option (List (String × CharData)) := none
  world_setting : Option String := none
  plot_outline : Option String := none
  chapters : Option (List (String × String)) := none
  genre : Option String := none
  target_audience : Option String := none
  theme : Option String := none
  writing_mode : Option String := none
  glossary : Option (List (String × GlossaryEntry)) := none
  full_story_length : Option String := none
  full_story_chapters : Option String := none
  full_story_style : Option String := none
deriving DecidableEq, Repr

/-- Python `d.get(k, default)`: the default applies only when the key is
absent (a present empty string is returned as is). -/
def pyGet (o : Option String) (default : String) : String := o.getD default

/-! ## PromptBuilder — `generate_ai_content` (src/app.py:245-353)

The f-string `base_info` (src/app.py:247-254) interpolates
`project_data.get('genre', '未設定')` and
`project_data.get('target_audience', '未設定')` from the **parameter**, but
`project.get('theme', '未設定')`, `project.get('synopsis', '未設定')` and
`project.get('world_setting', '未設定')[:500]` from the free variable
`project`.  `project` is a local variable of `main_app_view` /
`glossary_sidebar_view` only; it is never bound at module scope, so looking
it up from inside `generate_ai_content` raises
`NameError: name 'project' is not defined` before any prompt is built.
The module-scope environment is passed explicitly as `globalProject`, with
`moduleLevelProject = none` recording the absence of that binding. -/

inductive PyError
  | nameError (name : String)
deriving DecidableEq, Repr

/-- There is no assignment to a variable named `project` at module scope in
src/app.py (the only assignments are locals inside functions), so the lookup
of the free variable `project` fails. -/
def moduleLevelProject : Option PyProject := none

/-- The parameter dictionary `additional_params` (default `None`); each key
that any template reads is a field.  `apGet ap sel d` is
`additional_params.get(key, d) if additional_params else d` — the source
uses the same default in both branches at every site. -/
structure AdditionalParams where
  custom_elements : Option String := none
  char_name : Option String := none
  char_role : Option String := none
  char_details : Option String := none
  world_elements : Option String := none
  chapter_name : Option String := none
  chapter_plot : Option String := none
  target_length : Option String := none
  writing_style : Option String := none
  chapter_count : Option String := none
deriving DecidableEq, Repr

def apGet (ap : Option AdditionalParams) (sel : AdditionalParams → Option String)
    (default : String) : String :=
  match ap with
  | none => default
  | some a => (sel a).getD default

/-- The f-string `base_info` (src/app.py:247-254), evaluated in an
environment where the free variable `project` is bound to `project` (the
parameter `project_data` supplies only genre and target audience). -/
def base_info (project_data : PyProject) (project : PyProject) : String :=
  "\n作品基本情報:\n- ジャンル: " ++ pyGet project_data.genre "未設定" ++
  "\n- ターゲット読者: " ++ pyGet project_data.target_audience "未設定" ++
  "\n- テーマ: " ++ pyGet project.theme "未設定" ++
  "\n- あらすじ: " ++ pyGet project.synopsis "未設定" ++
  "\n- 世界観: " ++ pySlice 500 (pyGet project.world_setting "未設定") ++
  "\n"

/-- The five kind-specific templates (src/app.py:256-350), given the already
evaluated `base_info`.  An unrecognised `content_type` leaves `prompt = ""`. -/
def contentPrompt (content_type : String) (project_data : PyProject)
    (ap : Option AdditionalParams) (baseInfo : String) : String :=
  if content_type = "synopsis" then
    "\n魅力的なライトノベルのあらすじを作成してください。\n\n" ++ baseInfo ++
    "\n追加設定: " ++ apGet ap (fun a => a.custom_elements) "" ++
    "\n\n要求:\n1. 200-400文字の簡潔なあらすじ\n2. 読者の興味を引く内容\n" ++
    "3. 続きが気になる構成\n4. 完成度の高い、魅力的な品質で作成してください。\n"
  else if content_type = "character" then
    "\n魅力的なライトノベルのキャラクターを作成してください。\n\n" ++ baseInfo ++
    "\nキャラクター要求:\n- 名前: " ++ apGet ap (fun a => a.char_name) "" ++
    "\n- 役割: " ++ apGet ap (fun a => a.char_role) "" ++
    "\n- 追加要求: " ++ apGet ap (fun a => a.char_details) "" ++
    "\n\n作成項目:\n1. 詳細な性格設定\n2. 背景・過去\n3. 目標・動機\n" ++
    "4. 外見・特徴\n5. 口調・話し方\n6. 他キャラとの関係性\n\n" ++
    "読者に愛される魅力的なキャラクターを設計してください。\n"
  else if content_type = "world_setting" then
    "\n独創的で魅力的な世界観を構築してください。\n\n" ++ baseInfo ++
    "\n世界観要求: " ++ apGet ap (fun a => a.world_elements) "" ++
    "\n\n構築項目:\n1. 世界の基本ルール・法則\n2. 歴史・背景\n" ++
    "3. 政治・社会システム\n4. 魔法・超能力システム（該当する場合）\n" ++
    "5. 地理・環境\n6. 文化・風習\n7. 技術レベル\n\n" ++
    "既存作品との差別化を意識した独創的な世界観を作成してください。\n"
  else if content_type = "chapter" then
    let char_info :=
      match project_data.characters with
      | some cs =>
        if cs.isEmpty then ""
        else "\n主要キャラクター（抜粋）:\n" ++
          String.intercalate ", " ((cs.map Prod.fst).take 5)
      | none => ""
    "\n読者を引き込む魅力的な章を執筆してください。\n\n" ++ baseInfo ++ char_info ++
    "\n章の設定:\n- チャプター名/番号: " ++ apGet ap (fun a => a.chapter_name) "第X章" ++
    "\n- プロット概要: " ++ apGet ap (fun a => a.chapter_plot) "指定なし" ++
    "\n- 文字数目標: " ++ apGet ap (fun a => a.target_length) "3000-5000" ++ "文字" ++
    "\n- 文体: " ++ apGet ap (fun a => a.writing_style) "三人称" ++
    "\n\n執筆要求:\n1. 魅力的な導入\n2. キャラクターの魅力を最大化\n" ++
    "3. 読者を飽きさせない展開\n4. 次章への引き\n5. 完成度の高い文章力\n\n" ++
    "多くの読者に楽しんでもらえる品質で執筆してください。\n"
  else if content_type = "full_story" then
    "\n完全なライトノベル作品を執筆してください。\n\n" ++ baseInfo ++
    "\n執筆要求:\n- 文字数: " ++ apGet ap (fun a => a.target_length) "10000-15000" ++ "文字" ++
    "\n- 章数: " ++ apGet ap (fun a => a.chapter_count) "3-5" ++ "章構成" ++
    "\n- 文体: " ++ apGet ap (fun a => a.writing_style) "三人称" ++
    "\n\n構成:\n1. 魅力的なプロローグ\n2. キャラクター紹介と世界観提示\n" ++
    "3. 事件・問題の発生\n4. 展開・クライマックス\n5. 解決・エピローグ\n\n" ++
    "素晴らしい品質で作成してください。各章の終わりに【第○章 終了】と明記してください。\n"
  else ""

/-- The prompt that `generate_ai_content(content_type, project_data,
additional_params)` hands to `call_generative_api`.  Evaluating `base_info`
is the first thing the function body does, and it reads the free variable
`project`; with no module-scope binding (`globalProject = none`) this raises
`NameError` for every content type and every argument value. -/
def generate_ai_content_prompt (content_type : String) (project_data : PyProject)
    (additional_params : Option AdditionalParams)
    (globalProject : Option PyProject) : Except PyError String :=
  match globalProject with
  | none => .error (.nameError "project")
  | some project =>
    .ok (contentPrompt content_type project_data additional_params
          (base_info project_data project))

/-! ## Import handler (src/app.py:723-737)

```python
try:
    imported_data = json.load(uploaded_file)
    st.session_state.projects.update(imported_data)
    for project_name, project_data in st.session_state.projects.items():
        if 'glossary' not in project_data:
            project_data['glossary'] = {}
    st.sidebar.success("インポート完了！")
except json.JSONDecodeError:
    st.sidebar.error("無効なJSONファイルです。")
```

The parse result of the uploaded document is the explicit `parsed` argument:
`Except.error e` for malformed JSON (the `json.JSONDecodeError` branch fires
before `update`, so the mapping is untouched), `Except.ok doc` for a
well-formed document of the export shape — a JSON object mapping project
names to projects (object keys are unique, so an association-list first-match
lookup is faithful).  The project mapping is represented by its lookup
function `String → Option PyProject`. -/

/-- `dict.update`: keys of `doc` overwrite, all other keys are untouched. -/
def dictUpdate (m : String → Option PyProject) (doc : List (String × PyProject)) :
    String → Option PyProject :=
  fun k => match doc.lookup k with
    | some v => some v
    | none => m k

/-- `if 'glossary' not in project_data: project_data['glossary'] = {}`. -/
def backfillGlossary (p : PyProject) : PyProject :=
  match p.glossary with
  | none => { p with glossary := some [] }
  | some _ => p

/-- The import handler: returns the project mapping afterwards and the error
message surfaced by `st.sidebar.error`, if any. -/
def import_projects (parsed : Except String (List (String × PyProject)))
    (projects : String → Option PyProject) :
    (String → Option PyProject) × Option String :=
  match parsed with
  | .error _ => (projects, some "無効なJSONファイルです。")
  | .ok doc => (fun k => (dictUpdate projects doc k).map backfillGlossary, none)

/-! ## Full-story generation handler (src/app.py:1083-1097)

On the success of `generate_ai_content("full_story", ...)` (its result does
not start with "エラー") the handler **replaces** the whole chapters dict:
`project['chapters'] = {"全体生成結果": full_story_content}`, and stores the
three generation settings; on an error result it only shows the error. -/

def full_story_handler (project : PyProject) (full_story_content : String)
    (total_length chapter_count full_writing_style : String) : PyProject :=
  if pyStartsWith "エラー" full_story_content then project
  else
    { project with
      chapters := some [("全体生成結果", full_story_content)],
      full_story_length := some total_length,
      full_story_chapters := some chapter_count,
      full_story_style := some full_writing_style }

/-! ## Derived definitions and concrete fixtures -/

/-- The last `n` elements of a list (`lst[-n:]` when `n < len(lst)`). -/
def lastN (n : Nat) (l : List UsageRecord) : List UsageRecord :=
  l.drop (l.length - n)

/-- Total prompt+response tokens of a batch of `log_api_usage` calls. -/
def tokenSum (cs : List LogCall) : Nat :=
  (cs.map (fun c => c.prompt_tokens + c.response_tokens)).sum

/-- The "last call" summary that `call_generative_api` computes for an
invocation that got past the credential check: on success the model name and
the token breakdown (provider-reported for OpenAI/Claude, estimated via
`count_tokens` for Gemini), on a provider exception the model name, zero
tokens and the error string (src/app.py:223-228 and 234-240). -/
def callSummary (provider : Provider) (prompt : String) :
    ProviderOutcome → TokenInfo
  | .failure msg =>
    { model := get_model_name provider, prompt_tokens := 0,
      response_tokens := 0, total_tokens := 0, error := some msg }
  | .success text usage_prompt usage_response =>
    let pt := match provider with
      | .gemini => count_tokens prompt
      | _ => usage_prompt
    let rt := match provider with
      | .gemini => count_tokens text
      | _ => usage_response
    { model := get_model_name provider, prompt_tokens := pt,
      response_tokens := rt, total_tokens := pt + rt, error := none }

/-- `n` copies of a character (used to build concrete test synopses). -/
def repChar (c : Char) : Nat → List Char
  | 0 => []
  | n + 1 => c :: repChar c n

/-- A 300-character synopsis: four non-empty `。`-delimited sentences,
"しかし" exactly once, "ドラゴン" present, the full-width "？" present, and no
other connector, punctuation or genre trigger
(lengths: 11 + 95 + 1 + 94 + 2 + 96 + 1 = 300). -/
def c2ex : String :=
  ⟨"しかしドラゴンがいた。".data ++ repChar 'あ' 95 ++ "。".data ++
   repChar 'あ' 94 ++ "？。".data ++ repChar 'あ' 96 ++ "。".data⟩

/-- A synopsis in which the connector word "しかし" occurs twice. -/
def c3ex : String := "しかしあしかし"

/-- A ledger with non-zero counters and a non-trivial reset date. -/
def u7 : ApiUsage :=
  { daily_requests := 3, daily_tokens_used := 42,
    last_reset_date := "2026-10-11", total_requests := 7,
    total_tokens_used := 99,
    request_history :=
      [{ timestamp := "t0", model := "gemini-2.0-flash", prompt_tokens := 4,
         response_tokens := 5, total_tokens := 9 }] }

/-- A fresh gateway state (empty summary slot). -/
def st4 : GatewayState :=
  { api_usage := initialApiUsage "2026-10-12", current_call_token_info := none }

/-- A summary left over from a previous call. -/
def prevInfo : TokenInfo :=
  { model := "以前の呼び出し", prompt_tokens := 1, response_tokens := 2,
    total_tokens := 3, error := none }

/-- A gateway state whose summary slot holds `prevInfo`. -/
def st5 : GatewayState :=
  { api_usage := initialApiUsage "2026-10-12",
    current_call_token_info := some prevInfo }

/-- A project that already has two chapters. -/
def p10 : PyProject :=
  { created_at := some "2026-10-12T00:00:00", synopsis := some "",
    characters := some [], world_setting := some "", plot_outline := some "",
    chapters := some [("第1章", "古い本文"), ("第2章", "古い本文2")],
    genre := some "", target_audience := some "", theme := some "",
    writing_mode := some "manual", glossary := some [] }

/-! ## Helper lemmas -/

theorem countRunsAux_append_le (p : Char → Bool) :
    ∀ (l m : List Char) (b : Bool), countRunsAux p l b ≤ countRunsAux p (l ++ m) b
  | [], m, b => Nat.zero_le _
  | c :: cs, m, b => by
    simp only [List.cons_append, countRunsAux]
    split
    · exact Nat.add_le_add_left (countRunsAux_append_le p cs m true) _
    · exact countRunsAux_append_le p cs m false

theorem countRuns_append_le (p : Char → Bool) (l m : List Char) :
    countRuns p l ≤ countRuns p (l ++ m) :=
  countRunsAux_append_le p l m false

theorem lastN_of_le {n : Nat} {l : List UsageRecord} (h : l.length ≤ n) :
    lastN n l = l := by
  unfold lastN
  rw [Nat.sub_eq_zero_of_le h, List.drop_zero]

theorem length_lastN (n : Nat) (l : List UsageRecord) :
    (lastN n l).length = min n l.length := by
  unfold lastN
  rw [List.length_drop]
  omega

theorem drop_append_of_le (b : List UsageRecord) :
    ∀ (x : List UsageRecord) (k : Nat), k ≤ x.length →
      List.drop k (x ++ b) = List.drop k x ++ b
  | _, 0, _ => by simp
  | x :: xs, k + 1, h => by
    simp only [List.cons_append, List.drop_succ_cons]
    exact drop_append_of_le b xs k (by simpa using h)

/-- Truncating to the last `n`, appending, and truncating again is the same
as truncating the whole concatenation. -/
theorem lastN_append_lastN (n : Nat) (x b : List UsageRecord) :
    lastN n (lastN n x ++ b) = lastN n (x ++ b) := by
  by_cases h : x.length ≤ n
  · rw [lastN_of_le h]
  · have hn : n ≤ x.length := Nat.le_of_lt (Nat.lt_of_not_le h)
    unfold lastN
    rw [← drop_append_of_le b x (x.length - n) (Nat.sub_le _ _), List.drop_drop]
    congr 1
    simp only [List.length_drop, List.length_append]
    omega

theorem log_api_usage_history (u : ApiUsage) (c : LogCall) :
    (log_api_usage u c).request_history =
      lastN 100 (u.request_history ++ [mkUsageRecord c]) := by
  simp only [log_api_usage]
  split
  · rfl
  · rw [lastN_of_le (by omega)]

theorem log_api_usage_history_le (u : ApiUsage) (c : LogCall) :
    (log_api_usage u c).request_history.length ≤ 100 := by
  rw [log_api_usage_history, length_lastN]
  omega

/-- Full characterisation of `N` successive `log_api_usage` calls from any
ledger whose history is within the 100-entry cap. -/
theorem applyLogs_spec :
    ∀ (cs : List LogCall) (u : ApiUsage), u.request_history.length ≤ 100 →
    applyLogs u cs =
      { daily_requests := u.daily_requests + cs.length,
        daily_tokens_used := u.daily_tokens_used + tokenSum cs,
        last_reset_date := u.last_reset_date,
        total_requests := u.total_requests + cs.length,
        total_tokens_used := u.total_tokens_used + tokenSum cs,
        request_history := lastN 100 (u.request_history ++ cs.map mkUsageRecord) }
  | [], u, h => by
    cases u with
    | mk dr dt lrd tr tt hist =>
      simp only [applyLogs, List.foldl_nil, List.length_nil, tokenSum,
        List.map_nil, List.sum_nil, List.append_nil]
      rw [lastN_of_le (by simpa using h)]
      simp
  | c :: cs, u, h => by
    have step : applyLogs u (c :: cs) = applyLogs (log_api_usage u c) cs := rfl
    rw [step, applyLogs_spec cs (log_api_usage u c) (log_api_usage_history_le u c),
        log_api_usage_history u c, lastN_append_lastN]
    simp only [log_api_usage, tokenSum, List.map_cons, List.sum_cons,
      List.length_cons, List.append_assoc, List.singleton_append]
    congr 1 <;> first | rfl | omega

theorem sum_if_five (s : List Char) :
    ∀ ws : List (List Char),
      (ws.map (fun w => if pyIn w s then 5 else 0)).sum =
        5 * ws.countP (fun w => pyIn w s)
  | [] => by simp
  | w :: ws => by
    by_cases h : pyIn w s <;>
      simp [h, sum_if_five s ws, List.countP_cons, Nat.mul_add, Nat.add_comm]

theorem count_tokens_eq (text : String) :
    count_tokens text =
      max 1 ((text.data.countP (fun c => 127 < c.toNat) * 15 +
              countRuns isWordChar text.data * 13) / 10 +
             (if 500 < text.data.length then text.data.length / 10 else 0)) := by
  unfold count_tokens
  split <;> simp

/-! ## The claims -/

/-- Claim C1 — code_bug.  The claim states that the prompt built by
`generate_ai_content` is a pure function of `(content_type, project_data,
additional_params)` interpolating the snapshot's genre, target-audience,
theme, synopsis and world-setting fields.  In the source the theme, synopsis
and world-setting interpolations read the free variable `project`
(src/app.py:251-253), which has no module-scope binding, so every invocation
raises `NameError: name 'project' is not defined` instead of producing a
prompt — for every content type and every argument value. -/
theorem C1_generate_ai_content_raises_name_error (content_type : String)
    (project_data : PyProject) (additional_params : Option AdditionalParams) :
    generate_ai_content_prompt content_type project_data additional_params
      moduleLevelProject = Except.error (PyError.nameError "project") := rfl

set_option maxRecDepth 100000 in
/-- Claim C2 — counterexample.  `c2ex` satisfies every condition of the
claim (exactly 300 characters, "しかし" exactly once, the full-width "？"
present, "ドラゴン" present, exactly 4 non-empty `。`-delimited sentences,
and no other connector, punctuation or genre trigger), yet
`analyze_synopsis_quality` returns 70, not 80: the punctuation bonus at
src/app.py:154 checks the half-width "?" and the full-width "！", so the
full-width "？" earns nothing. -/
theorem C2_counterexample :
    c2ex.data.length = 300 ∧
    pyCount "しかし".data c2ex.data = 1 ∧
    pyIn "？".data c2ex.data = true ∧
    pyIn "ドラゴン".data c2ex.data = true ∧
    nonEmptySentences c2ex.data = 4 ∧
    pyIn "だが".data c2ex.data = false ∧
    pyIn "突然".data c2ex.data = false ∧
    pyIn "ついに".data c2ex.data = false ∧
    pyIn "果たして".data c2ex.data = false ∧
    pyIn "なぜなら".data c2ex.data = false ∧
    pyIn "そして".data c2ex.data = false ∧
    pyIn "もし".data c2ex.data = false ∧
    pyIn "驚くべきことに".data c2ex.data = false ∧
    pyIn "?".data c2ex.data = false ∧
    pyIn "！".data c2ex.data = false ∧
    pyIn "魔法".data c2ex.data = false ∧
    pyIn "異世界".data c2ex.data = false ∧
    pyIn "冒険".data c2ex.data = false ∧
    analyze_synopsis_quality c2ex = 70 ∧
    analyze_synopsis_quality c2ex ≠ 80 := by
  decide

/-- Claim C2 — amended.  For every synopsis of exactly 300 characters that
contains "しかし" exactly once, contains "？", contains "ドラゴン", splits on
"。" into exactly 4 non-empty sentences and contains no other connector,
punctuation or genre-signal trigger, the quality score is exactly 70
(= 30 length + 5 connector + 0 punctuation + 15 genre + 20 sentences): the
full-width "？" does not trigger the +10 punctuation bonus, which requires
the half-width "?" or the full-width "！". -/
theorem C2_amended_score_is_70 (s : String)
    (hlen : s.data.length = 300)
    (hc1 : pyIn "しかし".data s.data = true)
    (_hc1count : pyCount "しかし".data s.data = 1)
    (_hq0 : pyIn "？".data s.data = true)
    (hg1 : pyIn "ドラゴン".data s.data = true)
    (hsent : nonEmptySentences s.data = 4)
    (hc2 : pyIn "だが".data s.data = false)
    (hc3 : pyIn "突然".data s.data = false)
    (hc4 : pyIn "ついに".data s.data = false)
    (hc5 : pyIn "果たして".data s.data = false)
    (hc6 : pyIn "なぜなら".data s.data = false)
    (hc7 : pyIn "そして".data s.data = false)
    (hc8 : pyIn "もし".data s.data = false)
    (hc9 : pyIn "驚くべきことに".data s.data = false)
    (hq2 : pyIn "?".data s.data = false)
    (hq3 : pyIn "！".data s.data = false)
    (hg2 : pyIn "魔法".data s.data = false)
    (hg3 : pyIn "異世界".data s.data = false)
    (hg4 : pyIn "冒険".data s.data = false) :
    analyze_synopsis_quality s = 70 := by
  unfold analyze_synopsis_quality lengthScore connectorScore punctuationScore
    genreScore sentenceScore
  rw [hlen, hsent]
  simp [engaging_words, genre_keywords, hc1, hc2, hc3, hc4, hc5, hc6, hc7,
    hc8, hc9, hq2, hq3, hg1, hg2, hg3, hg4]

set_option maxRecDepth 100000 in
/-- Witness for C2's amended theorem at the concrete synopsis `c2ex`. -/
theorem C2_amended_witness : analyze_synopsis_quality c2ex = 70 :=
  C2_amended_score_is_70 c2ex (by decide) (by decide) (by decide) (by decide)
    (by decide) (by decide) (by decide) (by decide) (by decide) (by decide)
    (by decide) (by decide) (by decide) (by decide) (by decide) (by decide)
    (by decide) (by decide) (by decide)

/-- Claim C3 — counterexample.  In `c3ex` the connector word "しかし" occurs
2 times (non-overlapping), yet the connector loop contributes 5, not
5 * 2 = 10: src/app.py:151-152 tests membership (`if word in synopsis`) once
per word, so repeated occurrences of the same word are not re-counted. -/
theorem C3_counterexample :
    pyCount "しかし".data c3ex.data = 2 ∧
    pyIn "しかし".data c3ex.data = true ∧
    connectorScore c3ex.data = 5 ∧
    connectorScore c3ex.data ≠ 5 * 2 := by
  decide

/-- Claim C3 — amended.  For every synopsis, the connector contribution is 5
times the number of the 9 fixed connector words that appear as a substring
at least once (each word counts at most once, no matter how many times it
occurs). -/
theorem C3_connector_score_counts_distinct_words (s : String) :
    connectorScore s.data =
      5 * engaging_words.countP (fun w => pyIn w s.data) :=
  sum_if_five s.data engaging_words

/-- Claim C4 — confirmed.  For every provider and state, if the stored
credential is absent or empty the gateway call returns the per-provider
missing-key error value (whose message contains the provider's display
name) with zero token counts, attempts no outbound call, and leaves the
whole session state — every usage-ledger counter, the request history, and
the summary slot — unchanged. -/
theorem C4_missing_credential_no_effect (provider : Provider)
    (api_keys : Provider → Option String) (prompt : String)
    (outcome : ProviderOutcome) (timestamp : String) (st : GatewayState)
    (h : api_keys provider = none ∨ api_keys provider = some "") :
    call_generative_api provider api_keys prompt outcome timestamp st =
      { result := { text := missingKeyMessage provider, prompt_tokens := 0,
                    response_tokens := 0 },
        state := st, outbound_called := false } ∧
    pyIn (providerDisplayName provider).data
      (missingKeyMessage provider).data = true := by
  constructor
  · rcases h with h | h <;> simp [call_generative_api, h]
  · cases provider <;> decide

/-- Witness for C4 at a concrete missing-key call. -/
theorem C4_witness :
    call_generative_api Provider.gemini (fun _ => none) "テストプロンプト"
        (ProviderOutcome.success "応答テキスト" 5 7) "t1" st4 =
      { result := { text := missingKeyMessage Provider.gemini,
                    prompt_tokens := 0, response_tokens := 0 },
        state := st4, outbound_called := false } ∧
    pyIn (providerDisplayName Provider.gemini).data
      (missingKeyMessage Provider.gemini).data = true :=
  C4_missing_credential_no_effect Provider.gemini (fun _ => none)
    "テストプロンプト" (ProviderOutcome.success "応答テキスト" 5 7) "t1" st4
    (Or.inl rfl)

/-- Claim C5 — counterexample.  A gateway invocation that ends in
MissingCredential does **not** overwrite the last-call summary slot: with a
previous summary `prevInfo` in place and no Gemini key, the slot still holds
`prevInfo` afterwards, whose model name differs from this invocation's
model — contradicting the claim that every invocation, including
MissingCredential, overwrites the slot (the early returns at
src/app.py:181,193,206 skip the slot assignment). -/
theorem C5_counterexample :
    (call_generative_api Provider.gemini (fun _ => none) "プロンプト"
        (ProviderOutcome.failure "障害") "t1" st5).state.current_call_token_info
      = some prevInfo ∧
    prevInfo.model ≠ get_model_name Provider.gemini := by
  exact ⟨rfl, by decide⟩

/-- Claim C5 — amended.  The summary slot is overwritten with this
invocation's model name and token breakdown (plus the error string on a
provider failure) whenever the invocation gets past the credential check —
success or ProviderError alike — and is left unchanged when the invocation
ends in MissingCredential (absent or empty key). -/
theorem C5_summary_slot_behaviour (provider : Provider)
    (api_keys : Provider → Option String) (prompt : String)
    (outcome : ProviderOutcome) (timestamp : String) (st : GatewayState) :
    (call_generative_api provider api_keys prompt outcome timestamp
        st).state.current_call_token_info =
      match api_keys provider with
      | none => st.current_call_token_info
      | some k =>
        if k = "" then st.current_call_token_info
        else some (callSummary provider prompt outcome) := by
  rcases h : api_keys provider with _ | k
  · simp [call_generative_api, h]
  · by_cases hk : k = ""
    · simp [call_generative_api, h, hk]
    · cases outcome <;> cases provider <;>
        simp [call_generative_api, callSummary, h, hk]

/-- Claim C6 — confirmed.  Starting from an empty ledger, recording `N`
calls yields `total_requests = N`, daily and lifetime token counters equal
to the sum of the recorded prompt+response tokens, and a request history
that is exactly the most recent `min(N, 100)` records in insertion order. -/
theorem C6_record_n_times (startDate : String) (cs : List LogCall) :
    (applyLogs (initialApiUsage startDate) cs).total_requests = cs.length ∧
    (applyLogs (initialApiUsage startDate) cs).daily_tokens_used = tokenSum cs ∧
    (applyLogs (initialApiUsage startDate) cs).total_tokens_used = tokenSum cs ∧
    (applyLogs (initialApiUsage startDate) cs).request_history =
      (cs.map mkUsageRecord).drop (cs.length - 100) ∧
    (applyLogs (initialApiUsage startDate) cs).request_history.length =
      min cs.length 100 := by
  rw [applyLogs_spec cs (initialApiUsage startDate) (by simp [initialApiUsage])]
  refine ⟨by simp [initialApiUsage], by simp [initialApiUsage, tokenSum],
          by simp [initialApiUsage, tokenSum], ?_, ?_⟩
  · show lastN 100 ((initialApiUsage startDate).request_history ++
        cs.map mkUsageRecord) = _
    unfold lastN
    simp [initialApiUsage, List.length_map]
  · show (lastN 100 ((initialApiUsage startDate).request_history ++
        cs.map mkUsageRecord)).length = _
    rw [length_lastN]
    simp [initialApiUsage, List.length_map, Nat.min_comm]

/-- Claim C7 — confirmed.  The daily reset is idempotent for a fixed date,
and a reset on a date different from the stored one zeroes the two daily
counters and updates the stored date while leaving the lifetime counters and
the request history untouched. -/
theorem C7_daily_reset_idempotent (u : ApiUsage) (d : String) :
    daily_reset d (daily_reset d u) = daily_reset d u ∧
    (u.last_reset_date ≠ d →
      (daily_reset d u).daily_requests = 0 ∧
      (daily_reset d u).daily_tokens_used = 0 ∧
      (daily_reset d u).last_reset_date = d ∧
      (daily_reset d u).total_requests = u.total_requests ∧
      (daily_reset d u).total_tokens_used = u.total_tokens_used ∧
      (daily_reset d u).request_history = u.request_history) := by
  constructor
  · unfold daily_reset
    by_cases h : u.last_reset_date ≠ d <;> simp [h]
  · intro h
    simp [daily_reset, h]

/-- Witness for C7 at a concrete ledger and a new date. -/
theorem C7_witness :
    daily_reset "2026-10-12" (daily_reset "2026-10-12" u7) =
      daily_reset "2026-10-12" u7 ∧
    ((daily_reset "2026-10-12" u7).daily_requests = 0 ∧
     (daily_reset "2026-10-12" u7).daily_tokens_used = 0 ∧
     (daily_reset "2026-10-12" u7).last_reset_date = "2026-10-12" ∧
     (daily_reset "2026-10-12" u7).total_requests = u7.total_requests ∧
     (daily_reset "2026-10-12" u7).total_tokens_used = u7.total_tokens_used ∧
     (daily_reset "2026-10-12" u7).request_history = u7.request_history) :=
  ⟨(C7_daily_reset_idempotent u7 "2026-10-12").1,
   (C7_daily_reset_idempotent u7 "2026-10-12").2 (by decide)⟩

/-- Claim C8 — confirmed.  A malformed import surfaces the error message and
returns the project mapping unchanged; a well-formed import merges the
document into the mapping — same-named projects are overwritten by the
imported ones, all others keep their value (up to the glossary back-fill the
handler applies to every project) — and afterwards every project has a
glossary map. -/
theorem C8_import_behaviour (projects : String → Option PyProject)
    (e : String) (doc : List (String × PyProject)) (name : String) :
    import_projects (Except.error e) projects =
      (projects, some "無効なJSONファイルです。") ∧
    (import_projects (Except.ok doc) projects).2 = none ∧
    (import_projects (Except.ok doc) projects).1 name =
      (match doc.lookup name with
       | some p => some (backfillGlossary p)
       | none => (projects name).map backfillGlossary) ∧
    ((import_projects (Except.ok doc) projects).1 name).all
      (fun p => p.glossary.isSome) = true := by
  refine ⟨rfl, rfl, ?_, ?_⟩
  · simp only [import_projects, dictUpdate]
    cases h : doc.lookup name <;> simp [h]
  · simp only [import_projects, dictUpdate]
    cases h : doc.lookup name with
    | some p =>
      cases hg : p.glossary <;> simp [h, backfillGlossary, hg]
    | none =>
      cases hp : projects name with
      | none => simp [h, hp]
      | some p =>
        cases hg : p.glossary <;> simp [h, hp, backfillGlossary, hg]

/-- Claim C9 — confirmed.  The token estimator returns at least 1 for every
input, and appending any characters to a text never decreases the estimate —
in particular it is monotonic non-decreasing in input length for
same-character-class text (the claim's special case; no same-class
restriction is even needed). -/
theorem C9_count_tokens_positive_and_monotone (t s : String) :
    1 ≤ count_tokens t ∧ count_tokens t ≤ count_tokens (t ++ s) := by
  constructor
  · rw [count_tokens_eq]
    exact Nat.le_max_left 1 _
  · rw [count_tokens_eq, count_tokens_eq, String.data_append]
    have hjp : t.data.countP (fun c => 127 < c.toNat) ≤
        (t.data ++ s.data).countP (fun c => 127 < c.toNat) := by
      rw [List.countP_append]; omega
    have hruns := countRuns_append_le isWordChar t.data s.data
    have hlen : t.data.length ≤ (t.data ++ s.data).length := by
      rw [List.length_append]; omega
    have hest : (t.data.countP (fun c => 127 < c.toNat) * 15 +
        countRuns isWordChar t.data * 13) / 10 ≤
        ((t.data ++ s.data).countP (fun c => 127 < c.toNat) * 15 +
         countRuns isWordChar (t.data ++ s.data) * 13) / 10 := by
      exact Nat.div_le_div_right
        (Nat.add_le_add (Nat.mul_le_mul_right 15 hjp)
          (Nat.mul_le_mul_right 13 hruns))
    apply max_le_max (le_refl 1)
    split_ifs with h1 h2
    · exact Nat.add_le_add hest (Nat.div_le_div_right hlen)
    · omega
    · exact Nat.le_trans hest (Nat.le_add_right _ _)
    · simpa using hest

/-- Claim C10 — confirmed.  When the full-story generation result is a
success (it does not start with "エラー"), the handler replaces the
project's whole chapters map with the single-entry map
{"全体生成結果": generated text}; every previously stored chapter is
discarded. -/
theorem C10_full_story_replaces_chapters (project : PyProject)
    (content total_length chapter_count style : String)
    (h : pyStartsWith "エラー" content = false) :
    (full_story_handler project content total_length chapter_count
        style).chapters = some [("全体生成結果", content)] := by
  simp [full_story_handler, h]

/-- Witness for C10: a project with two existing chapters ends up with only
the single generated-result entry. -/
theorem C10_witness :
    (full_story_handler p10 "新しい物語の本文" "10000-15000字" "3-5章"
        "三人称").chapters = some [("全体生成結果", "新しい物語の本文")] :=
  C10_full_story_replaces_chapters p10 "新しい物語の本文" "10000-15000字"
    "3-5章" "三人称" (by decide)

end AInovel
